import Mathlib

/-!
Verification of a small geometric-predicate toolkit: a line/pyramid
intersection query built from exact vector algebra (`src/q2.py`), plus a
four-branch string rotation transform (`src/q1.py`).

Python floats are modelled as real numbers; float division by zero, which
raises `ZeroDivisionError` in Python, is modelled with `Except`.
-/

/-- Model of `string_rotation` from q1.py: a four-branch lookup on the angle.
Joining the characters of a string with a newline separator is modelled by
interspersing the newline character; unknown angles raise an exception,
modelled as `Except.error`. -/
def string_rotation (s : String) (angle : Int) : Except String String :=
  if angle = 0 then .ok s
  else if angle = 90 then .ok (String.mk (s.toList.reverse.intersperse (Char.ofNat 10)))
  else if angle = 180 then .ok (String.mk s.toList.reverse)
  else if angle = 270 then .ok (String.mk (s.toList.intersperse (Char.ofNat 10)))
  else .error "Invalid angle"

namespace Q2

/-- Threshold to determine equality of floats, `EPSILON = 0.00001` in q2.py. -/
def EPSILON : ℝ := 0.00001

/-- The `Vector3` value type of q2.py: three real coordinates. -/
@[ext] structure Vector3 where
  x : ℝ
  y : ℝ
  z : ℝ

noncomputable section

namespace Vector3

/-- Method `Vector3.cross_product` of q2.py. -/
def cross_product (a b : Vector3) : Vector3 :=
  ⟨a.y * b.z - a.z * b.y, a.z * b.x - a.x * b.z, a.x * b.y - a.y * b.x⟩

/-- Method `Vector3.dot_product` of q2.py. -/
def dot_product (a b : Vector3) : ℝ :=
  a.x * b.x + a.y * b.y + a.z * b.z

/-- Operator `Vector3.__sub__` of q2.py. -/
instance : Sub Vector3 :=
  ⟨fun a b => ⟨a.x - b.x, a.y - b.y, a.z - b.z⟩⟩

/-- Operator `Vector3.__add__` of q2.py. -/
instance : Add Vector3 :=
  ⟨fun a b => ⟨a.x + b.x, a.y + b.y, a.z + b.z⟩⟩

/-- Operator `Vector3.__mul__` of q2.py: scaling by a scalar on the right. -/
instance : HMul Vector3 ℝ Vector3 :=
  ⟨fun v k => ⟨v.x * k, v.y * k, v.z * k⟩⟩

@[simp] lemma sub_def (a b : Vector3) : a - b = ⟨a.x - b.x, a.y - b.y, a.z - b.z⟩ := rfl

@[simp] lemma add_def (a b : Vector3) : a + b = ⟨a.x + b.x, a.y + b.y, a.z + b.z⟩ := rfl

@[simp] lemma hmul_def (v : Vector3) (k : ℝ) : v * k = ⟨v.x * k, v.y * k, v.z * k⟩ := rfl

/-- Method `Vector3.magnitude` of q2.py: `sqrt(x**2 + y**2 + z**2)`. -/
def magnitude (v : Vector3) : ℝ :=
  Real.sqrt (v.x ^ 2 + v.y ^ 2 + v.z ^ 2)

end Vector3

open Vector3

/-- The `Line` class of q2.py: an origin point and a direction vector. -/
structure Line where
  point1 : Vector3
  direction : Vector3

/-- Method `Line.direction_vector` of q2.py. -/
def Line.direction_vector (l : Line) : Vector3 := l.direction

/-- The `Plane` class of q2.py: an ordered triple of vertices. The Python
constructor stores `vertices[0]`, `vertices[1]`, `vertices[2]`, here the
fields `v0`, `v1`, `v2`. -/
structure Plane where
  v0 : Vector3
  v1 : Vector3
  v2 : Vector3

/-- The derived normal `(vertices[1] - vertices[0]) × (vertices[2] - vertices[0])`
computed by the `Plane` constructor and returned by `Plane.normal_vector`. -/
def Plane.normal_vector (p : Plane) : Vector3 :=
  cross_product (p.v1 - p.v0) (p.v2 - p.v0)

/-- The `Pyramid` class of q2.py: an ordered 4-tuple of vertices. -/
structure Pyramid where
  v0 : Vector3
  v1 : Vector3
  v2 : Vector3
  v3 : Vector3

/-- Model of `itertools.combinations`: all k-element sublists, in the order
Python emits them (lexicographic by position in the input). -/
def combinations {α : Type} : Nat → List α → List (List α)
  | 0, _ => [[]]
  | _ + 1, [] => []
  | k + 1, a :: as => (combinations k as).map (a :: ·) ++ combinations (k + 1) as

/-- Construction `Plane((f[0], f[1], f[2]))` applied to one combination `f`;
out-of-range indexing never happens on the 3-element combinations produced
by `Pyramid.faces`, so the default is irrelevant there. -/
def mkFace (l : List Vector3) : Plane :=
  ⟨l.getD 0 ⟨0, 0, 0⟩, l.getD 1 ⟨0, 0, 0⟩, l.getD 2 ⟨0, 0, 0⟩⟩

/-- Method `Pyramid.faces` of q2.py: one `Plane` per 3-element combination of
the 4 vertices, in `itertools.combinations` order. -/
def Pyramid.faces (p : Pyramid) : List Plane :=
  (combinations 3 [p.v0, p.v1, p.v2, p.v3]).map mkFace

/-- Function `line_plane_intersection_point` of q2.py. Returns `none` when the
line is parallel to the plane (denominator check) or contained in it
(coplanarity check); otherwise the point `point1 + direction * d`. -/
def line_plane_intersection_point (line : Line) (plane : Plane) : Option Vector3 :=
  if |dot_product line.direction_vector plane.normal_vector| < EPSILON then
    none
  else if |dot_product (plane.v0 - line.point1) plane.normal_vector| < EPSILON then
    none
  else
    let d := dot_product (plane.v0 - line.point1) plane.normal_vector /
      dot_product line.direction_vector plane.normal_vector
    some (line.point1 + line.direction_vector * d)

/-- The local `triangle_area` of `point_in_triangle` in q2.py:
half the magnitude of `(v1 - v0) × (v2 - v0)`. -/
def triangle_area (t : Plane) : ℝ :=
  magnitude (cross_product (t.v1 - t.v0) (t.v2 - t.v0)) / 2

/-- The arithmetic fault a Python float division by zero raises. -/
inductive ArithError where
  | divByZero
deriving DecidableEq

/-- The local `sub_triangle_1` of `point_in_triangle` in q2.py. -/
def sub_triangle_1 (point : Vector3) (triangle : Plane) : ℝ :=
  magnitude (cross_product (point - triangle.v1) (point - triangle.v2)) /
    (2 * triangle_area triangle)

/-- The local `sub_triangle_2` of `point_in_triangle` in q2.py. -/
def sub_triangle_2 (point : Vector3) (triangle : Plane) : ℝ :=
  magnitude (cross_product (point - triangle.v2) (point - triangle.v0)) /
    (2 * triangle_area triangle)

/-- The local `sub_triangle_3` of `point_in_triangle` in q2.py. -/
def sub_triangle_3 (point : Vector3) (triangle : Plane) : ℝ :=
  magnitude (cross_product (point - triangle.v0) (point - triangle.v1)) /
    (2 * triangle_area triangle)

/-- The boolean condition returned by `point_in_triangle` in q2.py:
`all(0 <= area <= 1 for area in [s1, s2, s3]) and s1 + s2 + s3 - 1 < EPSILON`. -/
def in_triangle_cond (point : Vector3) (triangle : Plane) : Prop :=
  ((0 ≤ sub_triangle_1 point triangle ∧ sub_triangle_1 point triangle ≤ 1) ∧
    (0 ≤ sub_triangle_2 point triangle ∧ sub_triangle_2 point triangle ≤ 1) ∧
    (0 ≤ sub_triangle_3 point triangle ∧ sub_triangle_3 point triangle ≤ 1)) ∧
  sub_triangle_1 point triangle + sub_triangle_2 point triangle +
    sub_triangle_3 point triangle - 1 < EPSILON

instance (point : Vector3) (triangle : Plane) : Decidable (in_triangle_cond point triangle) := by
  unfold in_triangle_cond
  infer_instance

/-- Function `point_in_triangle` of q2.py. The three sub-triangle ratios each
divide by `2 * triangle_area`; when that denominator is zero Python raises
`ZeroDivisionError`, modelled as `Except.error`. -/
def point_in_triangle (point : Vector3) (triangle : Plane) : Except ArithError Bool :=
  if 2 * triangle_area triangle = 0 then
    .error .divByZero
  else
    .ok (decide (in_triangle_cond point triangle))

/-- The face loop of `line_intersection_with_pyramid` in q2.py, over an
explicit list of remaining faces: skip faces with no intersection point,
return `true` at the first face whose intersection point passes the
membership test, propagate an arithmetic fault, else fall through to `false`. -/
def intersect_loop (line : Line) : List Plane → Except ArithError Bool
  | [] => .ok false
  | face :: rest =>
    match line_plane_intersection_point line face with
    | none => intersect_loop line rest
    | some p =>
      match point_in_triangle p face with
      | .error e => .error e
      | .ok true => .ok true
      | .ok false => intersect_loop line rest

/-- Function `line_intersection_with_pyramid` of q2.py. -/
def line_intersection_with_pyramid (line : Line) (pyramid : Pyramid) : Except ArithError Bool :=
  intersect_loop line pyramid.faces

/-- A face yields a line-plane intersection point that the membership test
accepts: the success condition of one iteration of the face loop. -/
def face_accepts (line : Line) (face : Plane) : Prop :=
  ∃ p, line_plane_intersection_point line face = some p ∧
    point_in_triangle p face = .ok true

/-- The test line of q2.py `__main__`: origin `(0,0,0)`, direction `(1,1,1)`. -/
def lineA : Line := ⟨⟨0, 0, 0⟩, ⟨1, 1, 1⟩⟩

/-- The first test pyramid of q2.py `__main__` (expected crossed by `lineA`). -/
def pyrA : Pyramid := ⟨⟨0, 0, 0⟩, ⟨1, 0, 0⟩, ⟨0, 1, 0⟩, ⟨1, 1, 1⟩⟩

/-- The second test pyramid of q2.py `__main__` (expected missed by `lineA`). -/
def pyrB : Pyramid := ⟨⟨0, 0, 0⟩, ⟨1, 0, 0⟩, ⟨0, 1, 0⟩, ⟨0, 0, -1⟩⟩

/-- The fourth face of `pyrA`: the 3-subset with indices 1, 2, 3. -/
def faceA4 : Plane := ⟨⟨1, 0, 0⟩, ⟨0, 1, 0⟩, ⟨1, 1, 1⟩⟩

/-- A degenerate triangle with three collinear vertices on the x-axis. -/
def degTriangle : Plane := ⟨⟨0, 0, 0⟩, ⟨1, 0, 0⟩, ⟨2, 0, 0⟩⟩

/-- The triangle with vertices at the origin and the first two standard basis
points: the first face of both test pyramids. -/
def planeXY : Plane := ⟨⟨0, 0, 0⟩, ⟨1, 0, 0⟩, ⟨0, 1, 0⟩⟩

/-- A diagonal line whose intersection with `planeXY` lies behind its origin
(the solver's scalar `d` is negative there). -/
def lineBehind : Line := ⟨⟨2, 2, 2⟩, ⟨1, 1, 1⟩⟩

end

end Q2

/-! ### Theorems about the string rotation transform (q1.py) -/

/-- C10: for every string, `string_rotation` returns a string for each of the
angles 0, 90, 180 and 270, and raises an exception for every other angle. -/
theorem string_rotation_angle_spec (s : String) (angle : Int) :
    ((angle = 0 ∨ angle = 90 ∨ angle = 180 ∨ angle = 270) →
      ∃ t, string_rotation s angle = .ok t) ∧
    (angle ≠ 0 → angle ≠ 90 → angle ≠ 180 → angle ≠ 270 →
      string_rotation s angle = .error "Invalid angle") := by
  unfold string_rotation
  constructor
  · rintro (rfl | rfl | rfl | rfl) <;> simp
  · intro h0 h90 h180 h270
    simp [h0, h90, h180, h270]

/-- Witness for C10: a recognized angle succeeds, a rejected one errors. -/
theorem string_rotation_angle_spec_witness :
    (∃ t, string_rotation "allo" 90 = .ok t) ∧
    string_rotation "allo" 45 = .error "Invalid angle" :=
  ⟨(string_rotation_angle_spec "allo" 90).1 (Or.inr (Or.inl rfl)),
    (string_rotation_angle_spec "allo" 45).2 (by decide) (by decide) (by decide) (by decide)⟩

namespace Q2

open Vector3

/-! ### Basic algebraic lemmas -/

lemma EPSILON_pos : 0 < EPSILON := by norm_num [EPSILON]

lemma magnitude_eq_zero_iff (v : Vector3) : magnitude v = 0 ↔ v = ⟨0, 0, 0⟩ := by
  unfold magnitude
  rw [Real.sqrt_eq_zero']
  constructor
  · intro h
    have hx : v.x ^ 2 = 0 :=
      le_antisymm (by nlinarith [sq_nonneg v.y, sq_nonneg v.z]) (sq_nonneg v.x)
    have hy : v.y ^ 2 = 0 :=
      le_antisymm (by nlinarith [sq_nonneg v.x, sq_nonneg v.z]) (sq_nonneg v.y)
    have hz : v.z ^ 2 = 0 :=
      le_antisymm (by nlinarith [sq_nonneg v.x, sq_nonneg v.y]) (sq_nonneg v.z)
    ext
    · exact (pow_eq_zero_iff (by norm_num)).mp hx
    · exact (pow_eq_zero_iff (by norm_num)).mp hy
    · exact (pow_eq_zero_iff (by norm_num)).mp hz
  · rintro rfl
    norm_num

lemma dot_product_zero_right (a : Vector3) : dot_product a ⟨0, 0, 0⟩ = 0 := by
  simp [dot_product]

lemma two_mul_area_eq_zero_iff (t : Plane) :
    2 * triangle_area t = 0 ↔
      cross_product (t.v1 - t.v0) (t.v2 - t.v0) = ⟨0, 0, 0⟩ := by
  unfold triangle_area
  rw [show 2 * (magnitude (cross_product (t.v1 - t.v0) (t.v2 - t.v0)) / 2) =
        magnitude (cross_product (t.v1 - t.v0) (t.v2 - t.v0)) by ring]
  exact magnitude_eq_zero_iff _

lemma point_in_triangle_eq_ok {p : Vector3} {t : Plane} (h : 2 * triangle_area t ≠ 0) :
    point_in_triangle p t = .ok (decide (in_triangle_cond p t)) := by
  unfold point_in_triangle
  rw [if_neg h]

lemma point_in_triangle_true_iff {p : Vector3} {t : Plane} (h : 2 * triangle_area t ≠ 0) :
    point_in_triangle p t = .ok true ↔ in_triangle_cond p t := by
  rw [point_in_triangle_eq_ok h]
  simp

lemma triangle_area_planeXY : triangle_area planeXY = 1 / 2 := by
  norm_num [triangle_area, planeXY, cross_product, magnitude, Real.sqrt_one]

/-! ### Theorems about the intersection solver -/

/-- C2: the solver returns no intersection exactly when the denominator check
or the coplanarity check fires (with EPSILON = 1e-5), and in every other case
returns the single point `point1 + direction * d`, with no restriction on the
sign of `d`. -/
theorem line_plane_intersection_point_spec (line : Line) (plane : Plane) :
    (line_plane_intersection_point line plane = none ↔
      |dot_product line.direction_vector plane.normal_vector| < EPSILON ∨
      |dot_product (plane.v0 - line.point1) plane.normal_vector| < EPSILON) ∧
    (¬ (|dot_product line.direction_vector plane.normal_vector| < EPSILON ∨
        |dot_product (plane.v0 - line.point1) plane.normal_vector| < EPSILON) →
      line_plane_intersection_point line plane =
        some (line.point1 + line.direction_vector *
          (dot_product (plane.v0 - line.point1) plane.normal_vector /
            dot_product line.direction_vector plane.normal_vector))) := by
  unfold line_plane_intersection_point
  constructor
  · split_ifs with h1 h2
    · exact iff_of_true rfl (Or.inl h1)
    · exact iff_of_true rfl (Or.inr h2)
    · exact iff_of_false (by simp) (not_or.mpr ⟨h1, h2⟩)
  · intro h
    rw [not_or] at h
    rw [if_neg h.1, if_neg h.2]

/-- Witness for C2: for `lineBehind` and `planeXY` neither check fires and the
reported intersection has a negative parameter `d = -2`. -/
theorem line_plane_intersection_point_spec_witness :
    ¬ (|dot_product lineBehind.direction_vector planeXY.normal_vector| < EPSILON ∨
        |dot_product (planeXY.v0 - lineBehind.point1) planeXY.normal_vector| < EPSILON) ∧
    line_plane_intersection_point lineBehind planeXY =
      some (lineBehind.point1 + lineBehind.direction_vector *
        (dot_product (planeXY.v0 - lineBehind.point1) planeXY.normal_vector /
          dot_product lineBehind.direction_vector planeXY.normal_vector)) := by
  have h : ¬ (|dot_product lineBehind.direction_vector planeXY.normal_vector| < EPSILON ∨
      |dot_product (planeXY.v0 - lineBehind.point1) planeXY.normal_vector| < EPSILON) := by
    push_neg
    norm_num [lineBehind, planeXY, Line.direction_vector, Plane.normal_vector,
      cross_product, dot_product, EPSILON]
  exact ⟨h, (line_plane_intersection_point_spec lineBehind planeXY).2 h⟩

lemma dot_sub_left (a b c : Vector3) :
    dot_product (a - b) c = dot_product a c - dot_product b c := by
  simp [dot_product]
  ring

lemma dot_add_left (a b c : Vector3) :
    dot_product (a + b) c = dot_product a c + dot_product b c := by
  simp [dot_product]
  ring

lemma dot_smul_left (a : Vector3) (k : ℝ) (b : Vector3) :
    dot_product (a * k) b = k * dot_product a b := by
  simp [dot_product]
  ring

/-- C7: when the solver returns a point, that point is
`point1 + direction * d` for the solver's scalar `d`, and in exact real
arithmetic it satisfies the plane equation `(p - v0) · normal = 0`. -/
theorem line_plane_intersection_point_on_plane (line : Line) (plane : Plane) (p : Vector3)
    (h : line_plane_intersection_point line plane = some p) :
    p = line.point1 + line.direction_vector *
      (dot_product (plane.v0 - line.point1) plane.normal_vector /
        dot_product line.direction_vector plane.normal_vector) ∧
    dot_product (p - plane.v0) plane.normal_vector = 0 := by
  unfold line_plane_intersection_point at h
  split_ifs at h with h1 h2
  have hd : dot_product line.direction_vector plane.normal_vector ≠ 0 := by
    intro hz
    apply h1
    rw [hz]
    simpa using EPSILON_pos
  simp only [Option.some.injEq] at h
  subst h
  refine ⟨rfl, ?_⟩
  rw [dot_sub_left, dot_add_left, dot_smul_left, div_mul_cancel₀ _ hd, dot_sub_left]
  ring

/-! ### Theorems about the membership test -/

/-- C3: for a triangle of nonzero area `A`, `point_in_triangle` accepts a point
exactly when each of the three sub-triangle area ratios (sub-triangle area
divided by `A`) lies in the closed interval [0, 1] and the sum of the ratios
passes the one-sided check `sum - 1 < EPSILON`; no lower bound on the sum. -/
theorem point_in_triangle_spec (p : Vector3) (t : Plane) (h : triangle_area t ≠ 0) :
    point_in_triangle p t = .ok true ↔
      ((0 ≤ magnitude (cross_product (p - t.v1) (p - t.v2)) / 2 / triangle_area t ∧
        magnitude (cross_product (p - t.v1) (p - t.v2)) / 2 / triangle_area t ≤ 1) ∧
       (0 ≤ magnitude (cross_product (p - t.v2) (p - t.v0)) / 2 / triangle_area t ∧
        magnitude (cross_product (p - t.v2) (p - t.v0)) / 2 / triangle_area t ≤ 1) ∧
       (0 ≤ magnitude (cross_product (p - t.v0) (p - t.v1)) / 2 / triangle_area t ∧
        magnitude (cross_product (p - t.v0) (p - t.v1)) / 2 / triangle_area t ≤ 1)) ∧
      magnitude (cross_product (p - t.v1) (p - t.v2)) / 2 / triangle_area t +
        magnitude (cross_product (p - t.v2) (p - t.v0)) / 2 / triangle_area t +
        magnitude (cross_product (p - t.v0) (p - t.v1)) / 2 / triangle_area t - 1 <
        EPSILON := by
  have h2 : 2 * triangle_area t ≠ 0 := fun hz => h (by linarith)
  rw [point_in_triangle_true_iff h2]
  unfold in_triangle_cond sub_triangle_1 sub_triangle_2 sub_triangle_3
  simp only [div_div]

/-- Witness for C3 at the origin and the nondegenerate triangle `planeXY`. -/
theorem point_in_triangle_spec_witness :
    triangle_area planeXY ≠ 0 ∧
    (point_in_triangle ⟨0, 0, 0⟩ planeXY = .ok true ↔
      ((0 ≤ magnitude (cross_product (⟨0, 0, 0⟩ - planeXY.v1) (⟨0, 0, 0⟩ - planeXY.v2)) / 2 /
          triangle_area planeXY ∧
        magnitude (cross_product (⟨0, 0, 0⟩ - planeXY.v1) (⟨0, 0, 0⟩ - planeXY.v2)) / 2 /
          triangle_area planeXY ≤ 1) ∧
       (0 ≤ magnitude (cross_product (⟨0, 0, 0⟩ - planeXY.v2) (⟨0, 0, 0⟩ - planeXY.v0)) / 2 /
          triangle_area planeXY ∧
        magnitude (cross_product (⟨0, 0, 0⟩ - planeXY.v2) (⟨0, 0, 0⟩ - planeXY.v0)) / 2 /
          triangle_area planeXY ≤ 1) ∧
       (0 ≤ magnitude (cross_product (⟨0, 0, 0⟩ - planeXY.v0) (⟨0, 0, 0⟩ - planeXY.v1)) / 2 /
          triangle_area planeXY ∧
        magnitude (cross_product (⟨0, 0, 0⟩ - planeXY.v0) (⟨0, 0, 0⟩ - planeXY.v1)) / 2 /
          triangle_area planeXY ≤ 1)) ∧
      magnitude (cross_product (⟨0, 0, 0⟩ - planeXY.v1) (⟨0, 0, 0⟩ - planeXY.v2)) / 2 /
          triangle_area planeXY +
        magnitude (cross_product (⟨0, 0, 0⟩ - planeXY.v2) (⟨0, 0, 0⟩ - planeXY.v0)) / 2 /
          triangle_area planeXY +
        magnitude (cross_product (⟨0, 0, 0⟩ - planeXY.v0) (⟨0, 0, 0⟩ - planeXY.v1)) / 2 /
          triangle_area planeXY - 1 < EPSILON) := by
  have hA : triangle_area planeXY ≠ 0 := by
    rw [triangle_area_planeXY]
    norm_num
  exact ⟨hA, point_in_triangle_spec ⟨0, 0, 0⟩ planeXY hA⟩

/-- C5: a zero-area (collinear-vertex) triangle makes `point_in_triangle` fault
with an uncaught division by zero, not a descriptive error or a false result;
a nonzero-area triangle never divides by zero and yields a boolean. -/
theorem point_in_triangle_degenerate_spec (p : Vector3) (t : Plane) :
    (triangle_area t = 0 → point_in_triangle p t = .error .divByZero) ∧
    (triangle_area t ≠ 0 → ∃ b : Bool, point_in_triangle p t = .ok b) := by
  constructor
  · intro h
    unfold point_in_triangle
    rw [if_pos (by rw [h, mul_zero])]
  · intro h
    exact ⟨_, point_in_triangle_eq_ok (fun hz => h (by linarith))⟩

/-- Witness for C5: the collinear triangle `degTriangle` faults, the
nondegenerate triangle `planeXY` yields a boolean. -/
theorem point_in_triangle_degenerate_spec_witness :
    triangle_area degTriangle = 0 ∧
    point_in_triangle ⟨5, 5, 5⟩ degTriangle = .error .divByZero ∧
    triangle_area planeXY ≠ 0 ∧
    ∃ b : Bool, point_in_triangle ⟨5, 5, 5⟩ planeXY = .ok b := by
  have h0 : triangle_area degTriangle = 0 := by
    norm_num [triangle_area, degTriangle, cross_product, magnitude, Real.sqrt_zero]
  have h1 : triangle_area planeXY ≠ 0 := by
    rw [triangle_area_planeXY]
    norm_num
  exact ⟨h0, (point_in_triangle_degenerate_spec ⟨5, 5, 5⟩ degTriangle).1 h0, h1,
    (point_in_triangle_degenerate_spec ⟨5, 5, 5⟩ planeXY).2 h1⟩

/-! ### The face loop -/

lemma area_ne_zero_of_lpip_some {line : Line} {face : Plane} {p : Vector3}
    (h : line_plane_intersection_point line face = some p) :
    2 * triangle_area face ≠ 0 := by
  unfold line_plane_intersection_point at h
  split_ifs at h with h1 h2
  intro hz
  rw [two_mul_area_eq_zero_iff] at hz
  apply h1
  have hnv : Plane.normal_vector face = ⟨0, 0, 0⟩ := hz
  rw [hnv, dot_product_zero_right]
  simpa using EPSILON_pos

lemma pit_ok_of_lpip_some {line : Line} {face : Plane} {p : Vector3}
    (h : line_plane_intersection_point line face = some p) :
    point_in_triangle p face = .ok (decide (in_triangle_cond p face)) :=
  point_in_triangle_eq_ok (area_ne_zero_of_lpip_some h)

lemma pit_true_of_lpip_some {line : Line} {face : Plane} {p : Vector3}
    (h : line_plane_intersection_point line face = some p)
    (hc : in_triangle_cond p face) :
    point_in_triangle p face = .ok true := by
  rw [pit_ok_of_lpip_some h, decide_eq_true hc]

lemma pit_false_of_lpip_some {line : Line} {face : Plane} {p : Vector3}
    (h : line_plane_intersection_point line face = some p)
    (hc : ¬ in_triangle_cond p face) :
    point_in_triangle p face = .ok false := by
  rw [pit_ok_of_lpip_some h, decide_eq_false hc]

lemma intersect_loop_cons_none {line : Line} {face : Plane}
    (h : line_plane_intersection_point line face = none) (rest : List Plane) :
    intersect_loop line (face :: rest) = intersect_loop line rest := by
  simp only [intersect_loop, h]

lemma intersect_loop_cons_some_true {line : Line} {face : Plane} {p : Vector3}
    (h : line_plane_intersection_point line face = some p)
    (hp : point_in_triangle p face = .ok true) (rest : List Plane) :
    intersect_loop line (face :: rest) = .ok true := by
  simp only [intersect_loop, h, hp]

lemma intersect_loop_cons_some_false {line : Line} {face : Plane} {p : Vector3}
    (h : line_plane_intersection_point line face = some p)
    (hp : point_in_triangle p face = .ok false) (rest : List Plane) :
    intersect_loop line (face :: rest) = intersect_loop line rest := by
  simp only [intersect_loop, h, hp]

lemma intersect_loop_ok (line : Line) (faces : List Plane) :
    ∃ b : Bool, intersect_loop line faces = .ok b := by
  induction faces with
  | nil => exact ⟨false, rfl⟩
  | cons face rest ih =>
    cases hl : line_plane_intersection_point line face with
    | none =>
      rw [intersect_loop_cons_none hl]
      exact ih
    | some p =>
      by_cases hc : in_triangle_cond p face
      · exact ⟨true, intersect_loop_cons_some_true hl (pit_true_of_lpip_some hl hc) rest⟩
      · rw [intersect_loop_cons_some_false hl (pit_false_of_lpip_some hl hc) rest]
        exact ih

lemma intersect_loop_true_iff (line : Line) (faces : List Plane) :
    intersect_loop line faces = .ok true ↔ ∃ face ∈ faces, face_accepts line face := by
  induction faces with
  | nil => simp [intersect_loop]
  | cons face rest ih =>
    constructor
    · intro h
      cases hl : line_plane_intersection_point line face with
      | none =>
        rw [intersect_loop_cons_none hl] at h
        obtain ⟨f, hf, ha⟩ := ih.mp h
        exact ⟨f, List.mem_cons_of_mem _ hf, ha⟩
      | some p =>
        by_cases hc : in_triangle_cond p face
        · exact ⟨face, List.mem_cons_self _ _, ⟨p, hl, pit_true_of_lpip_some hl hc⟩⟩
        · rw [intersect_loop_cons_some_false hl (pit_false_of_lpip_some hl hc) rest] at h
          obtain ⟨f, hf, ha⟩ := ih.mp h
          exact ⟨f, List.mem_cons_of_mem _ hf, ha⟩
    · rintro ⟨f, hf, p, hp, hpt⟩
      rcases List.mem_cons.mp hf with rfl | hf
      · exact intersect_loop_cons_some_true hp hpt rest
      · cases hl : line_plane_intersection_point line face with
        | none =>
          rw [intersect_loop_cons_none hl]
          exact ih.mpr ⟨f, hf, ⟨p, hp, hpt⟩⟩
        | some q =>
          by_cases hc : in_triangle_cond q face
          · exact intersect_loop_cons_some_true hl (pit_true_of_lpip_some hl hc) rest
          · rw [intersect_loop_cons_some_false hl (pit_false_of_lpip_some hl hc) rest]
            exact ih.mpr ⟨f, hf, ⟨p, hp, hpt⟩⟩

/-- C1: the query returns `true` exactly when some face of `Pyramid.faces()`,
visited in the fixed order, yields a solver point accepted by the membership
test; the loop returns `true` at the first accepting face whatever faces
follow it, and returns `false` when no face yields a contained point. -/
theorem line_intersection_with_pyramid_spec (line : Line) (pyramid : Pyramid) :
    (line_intersection_with_pyramid line pyramid = .ok true ↔
      ∃ face ∈ pyramid.faces, face_accepts line face) ∧
    ((¬ ∃ face ∈ pyramid.faces, face_accepts line face) →
      line_intersection_with_pyramid line pyramid = .ok false) ∧
    (∀ face rest, face_accepts line face →
      intersect_loop line (face :: rest) = .ok true) := by
  refine ⟨intersect_loop_true_iff line pyramid.faces, ?_, ?_⟩
  · intro hn
    obtain ⟨b, hb⟩ := intersect_loop_ok line pyramid.faces
    cases b with
    | false => exact hb
    | true => exact absurd ((intersect_loop_true_iff line pyramid.faces).mp hb) hn
  · rintro face rest ⟨p, hp, hpt⟩
    exact intersect_loop_cons_some_true hp hpt rest

/-- C9: for a pyramid all of whose faces have non-collinear vertices (nonzero
edge cross product), the query evaluates to a boolean without division by
zero: the solver divides only behind its epsilon denominator check, and on
every face where the solver produced a point the membership denominator
`2 * triangle_area` is nonzero. -/
theorem line_intersection_with_pyramid_no_fault (line : Line) (pyramid : Pyramid)
    (h : ∀ face ∈ pyramid.faces,
      cross_product (face.v1 - face.v0) (face.v2 - face.v0) ≠ ⟨0, 0, 0⟩) :
    (∃ b : Bool, line_intersection_with_pyramid line pyramid = .ok b) ∧
    (∀ face ∈ pyramid.faces, ∀ p, line_plane_intersection_point line face = some p →
      2 * triangle_area face ≠ 0) :=
  ⟨intersect_loop_ok line pyramid.faces,
    fun face hf _ _ hz => h face hf ((two_mul_area_eq_zero_iff face).mp hz)⟩

/-! ### Theorems about the face enumeration -/

/-- C4: `Pyramid.faces` yields exactly 4 planes, one per 3-element subset of
the vertices, in the lexicographic index order {0,1,2}, {0,1,3}, {0,2,3},
{1,2,3}; the explicit list shows each subset appears exactly once. -/
theorem faces_spec (p : Pyramid) :
    p.faces = [⟨p.v0, p.v1, p.v2⟩, ⟨p.v0, p.v1, p.v3⟩,
      ⟨p.v0, p.v2, p.v3⟩, ⟨p.v1, p.v2, p.v3⟩] ∧
    p.faces.length = 4 :=
  ⟨rfl, rfl⟩

/-! ### Theorems about the plane normal -/

/-! ### Concrete evaluations on the test scenarios of q2.py -/

lemma lpip_A1 :
    line_plane_intersection_point lineA ⟨⟨0, 0, 0⟩, ⟨1, 0, 0⟩, ⟨0, 1, 0⟩⟩ = none := by
  norm_num [line_plane_intersection_point, lineA, Line.direction_vector,
    Plane.normal_vector, cross_product, dot_product, EPSILON, abs_one, abs_zero]

lemma lpip_A2 :
    line_plane_intersection_point lineA ⟨⟨0, 0, 0⟩, ⟨1, 0, 0⟩, ⟨1, 1, 1⟩⟩ = none := by
  norm_num [line_plane_intersection_point, lineA, Line.direction_vector,
    Plane.normal_vector, cross_product, dot_product, EPSILON, abs_one, abs_zero]

lemma lpip_A3 :
    line_plane_intersection_point lineA ⟨⟨0, 0, 0⟩, ⟨0, 1, 0⟩, ⟨1, 1, 1⟩⟩ = none := by
  norm_num [line_plane_intersection_point, lineA, Line.direction_vector,
    Plane.normal_vector, cross_product, dot_product, EPSILON, abs_one, abs_zero]

lemma lpip_A4 :
    line_plane_intersection_point lineA ⟨⟨1, 0, 0⟩, ⟨0, 1, 0⟩, ⟨1, 1, 1⟩⟩ =
      some ⟨1, 1, 1⟩ := by
  norm_num [line_plane_intersection_point, lineA, Line.direction_vector,
    Plane.normal_vector, cross_product, dot_product, EPSILON, abs_one, abs_zero,
    Vector3.mk.injEq]

lemma pit_A4 :
    point_in_triangle ⟨1, 1, 1⟩ ⟨⟨1, 0, 0⟩, ⟨0, 1, 0⟩, ⟨1, 1, 1⟩⟩ = .ok true := by
  have hs3 : Real.sqrt 3 ≠ 0 := by positivity
  have harea : 2 * triangle_area ⟨⟨1, 0, 0⟩, ⟨0, 1, 0⟩, ⟨1, 1, 1⟩⟩ = Real.sqrt 3 := by
    rw [triangle_area]
    norm_num [cross_product, magnitude]
    ring
  rw [point_in_triangle_eq_ok (by rw [harea]; exact hs3)]
  congr 1
  rw [decide_eq_true_eq]
  unfold in_triangle_cond sub_triangle_1 sub_triangle_2 sub_triangle_3
  rw [harea]
  norm_num [cross_product, magnitude, EPSILON, Real.sqrt_zero, zero_div, div_self hs3]

lemma lpip_B2 :
    line_plane_intersection_point lineA ⟨⟨0, 0, 0⟩, ⟨1, 0, 0⟩, ⟨0, 0, -1⟩⟩ = none := by
  norm_num [line_plane_intersection_point, lineA, Line.direction_vector,
    Plane.normal_vector, cross_product, dot_product, EPSILON, abs_one, abs_zero]

lemma lpip_B3 :
    line_plane_intersection_point lineA ⟨⟨0, 0, 0⟩, ⟨0, 1, 0⟩, ⟨0, 0, -1⟩⟩ = none := by
  norm_num [line_plane_intersection_point, lineA, Line.direction_vector,
    Plane.normal_vector, cross_product, dot_product, EPSILON, abs_one, abs_zero]

lemma lpip_B4 :
    line_plane_intersection_point lineA ⟨⟨1, 0, 0⟩, ⟨0, 1, 0⟩, ⟨0, 0, -1⟩⟩ =
      some ⟨1, 1, 1⟩ := by
  norm_num [line_plane_intersection_point, lineA, Line.direction_vector,
    Plane.normal_vector, cross_product, dot_product, EPSILON, abs_one, abs_zero,
    Vector3.mk.injEq]

lemma pit_B4 :
    point_in_triangle ⟨1, 1, 1⟩ ⟨⟨1, 0, 0⟩, ⟨0, 1, 0⟩, ⟨0, 0, -1⟩⟩ = .ok false := by
  have hs3 : Real.sqrt 3 ≠ 0 := by positivity
  have harea : 2 * triangle_area ⟨⟨1, 0, 0⟩, ⟨0, 1, 0⟩, ⟨0, 0, -1⟩⟩ = Real.sqrt 3 := by
    rw [triangle_area]
    norm_num [cross_product, magnitude]
    ring
  rw [point_in_triangle_eq_ok (by rw [harea]; exact hs3)]
  congr 1
  rw [decide_eq_false_iff_not]
  unfold in_triangle_cond sub_triangle_1 sub_triangle_2 sub_triangle_3
  rw [harea]
  norm_num [cross_product, magnitude, EPSILON, Real.sqrt_zero, zero_div, div_self hs3]

/-- C6: the line with origin (0,0,0) and direction (1,1,1) intersects the
first test pyramid and misses the second, exactly as the q2.py main block
expects. -/
theorem main_scenarios :
    line_intersection_with_pyramid lineA pyrA = .ok true ∧
    line_intersection_with_pyramid lineA pyrB = .ok false := by
  constructor
  · show intersect_loop lineA pyrA.faces = .ok true
    rw [show pyrA.faces = [⟨⟨0, 0, 0⟩, ⟨1, 0, 0⟩, ⟨0, 1, 0⟩⟩, ⟨⟨0, 0, 0⟩, ⟨1, 0, 0⟩, ⟨1, 1, 1⟩⟩,
      ⟨⟨0, 0, 0⟩, ⟨0, 1, 0⟩, ⟨1, 1, 1⟩⟩, ⟨⟨1, 0, 0⟩, ⟨0, 1, 0⟩, ⟨1, 1, 1⟩⟩] from rfl]
    rw [intersect_loop_cons_none lpip_A1, intersect_loop_cons_none lpip_A2,
      intersect_loop_cons_none lpip_A3]
    exact intersect_loop_cons_some_true lpip_A4 pit_A4 []
  · show intersect_loop lineA pyrB.faces = .ok false
    rw [show pyrB.faces = [⟨⟨0, 0, 0⟩, ⟨1, 0, 0⟩, ⟨0, 1, 0⟩⟩, ⟨⟨0, 0, 0⟩, ⟨1, 0, 0⟩, ⟨0, 0, -1⟩⟩,
      ⟨⟨0, 0, 0⟩, ⟨0, 1, 0⟩, ⟨0, 0, -1⟩⟩, ⟨⟨1, 0, 0⟩, ⟨0, 1, 0⟩, ⟨0, 0, -1⟩⟩] from rfl]
    rw [intersect_loop_cons_none lpip_A1, intersect_loop_cons_none lpip_B2,
      intersect_loop_cons_none lpip_B3,
      intersect_loop_cons_some_false lpip_B4 pit_B4 []]
    rfl

/-- Witness for C1 on the concrete scenarios: no face of the second test
pyramid accepts the test line, so the query returns false there; the fourth
face of the first test pyramid accepts it, and the loop started at that face
returns true whatever follows. -/
theorem line_intersection_with_pyramid_spec_witness :
    (¬ ∃ face ∈ pyrB.faces, face_accepts lineA face) ∧
    line_intersection_with_pyramid lineA pyrB = .ok false ∧
    face_accepts lineA faceA4 ∧
    intersect_loop lineA [faceA4] = .ok true := by
  have hacc : face_accepts lineA faceA4 := ⟨⟨1, 1, 1⟩, lpip_A4, pit_A4⟩
  have hno : ¬ ∃ face ∈ pyrB.faces, face_accepts lineA face := by
    rintro ⟨f, hf, p, hp, hpt⟩
    rw [show pyrB.faces = [⟨⟨0, 0, 0⟩, ⟨1, 0, 0⟩, ⟨0, 1, 0⟩⟩, ⟨⟨0, 0, 0⟩, ⟨1, 0, 0⟩, ⟨0, 0, -1⟩⟩,
      ⟨⟨0, 0, 0⟩, ⟨0, 1, 0⟩, ⟨0, 0, -1⟩⟩, ⟨⟨1, 0, 0⟩, ⟨0, 1, 0⟩, ⟨0, 0, -1⟩⟩] from rfl] at hf
    simp only [List.mem_cons, List.not_mem_nil, or_false] at hf
    rcases hf with rfl | rfl | rfl | rfl
    · rw [lpip_A1] at hp
      cases hp
    · rw [lpip_B2] at hp
      cases hp
    · rw [lpip_B3] at hp
      cases hp
    · rw [lpip_B4] at hp
      obtain rfl : (⟨1, 1, 1⟩ : Vector3) = p := Option.some.inj hp
      rw [pit_B4] at hpt
      cases hpt
  exact ⟨hno, (line_intersection_with_pyramid_spec lineA pyrB).2.1 hno, hacc,
    (line_intersection_with_pyramid_spec lineA pyrA).2.2 faceA4 [] hacc⟩

/-- Witness for C7 at the fourth face of the first test pyramid: the solver
returns (1,1,1), which has the stated parametric form and lies on the face
plane. -/
theorem line_plane_intersection_point_on_plane_witness :
    line_plane_intersection_point lineA faceA4 = some ⟨1, 1, 1⟩ ∧
    ((⟨1, 1, 1⟩ : Vector3) = lineA.point1 + lineA.direction_vector *
      (dot_product (faceA4.v0 - lineA.point1) faceA4.normal_vector /
        dot_product lineA.direction_vector faceA4.normal_vector) ∧
      dot_product ((⟨1, 1, 1⟩ : Vector3) - faceA4.v0) faceA4.normal_vector = 0) := by
  have h : line_plane_intersection_point lineA faceA4 = some ⟨1, 1, 1⟩ := lpip_A4
  exact ⟨h, line_plane_intersection_point_on_plane lineA faceA4 ⟨1, 1, 1⟩ h⟩

/-- Witness for C9: every face of the first test pyramid has non-collinear
vertices, and the query on it evaluates to a boolean. -/
theorem line_intersection_with_pyramid_no_fault_witness :
    (∀ face ∈ pyrA.faces,
      cross_product (face.v1 - face.v0) (face.v2 - face.v0) ≠ ⟨0, 0, 0⟩) ∧
    ∃ b : Bool, line_intersection_with_pyramid lineA pyrA = .ok b := by
  have h : ∀ face ∈ pyrA.faces,
      cross_product (face.v1 - face.v0) (face.v2 - face.v0) ≠ ⟨0, 0, 0⟩ := by
    intro face hf
    rw [show pyrA.faces = [⟨⟨0, 0, 0⟩, ⟨1, 0, 0⟩, ⟨0, 1, 0⟩⟩, ⟨⟨0, 0, 0⟩, ⟨1, 0, 0⟩, ⟨1, 1, 1⟩⟩,
      ⟨⟨0, 0, 0⟩, ⟨0, 1, 0⟩, ⟨1, 1, 1⟩⟩, ⟨⟨1, 0, 0⟩, ⟨0, 1, 0⟩, ⟨1, 1, 1⟩⟩] from rfl] at hf
    simp only [List.mem_cons, List.not_mem_nil, or_false] at hf
    rcases hf with rfl | rfl | rfl | rfl <;>
      norm_num [cross_product, Vector3.mk.injEq]
  exact ⟨h, (line_intersection_with_pyramid_no_fault lineA pyrA h).1⟩

/-- C8: the normal derived by the `Plane` constructor is exactly negated when
any two of the three input vertices are swapped. -/
theorem normal_vector_flips (a b c : Vector3) :
    Plane.normal_vector ⟨b, a, c⟩ = Plane.normal_vector ⟨a, b, c⟩ * (-1 : ℝ) ∧
    Plane.normal_vector ⟨c, b, a⟩ = Plane.normal_vector ⟨a, b, c⟩ * (-1 : ℝ) ∧
    Plane.normal_vector ⟨a, c, b⟩ = Plane.normal_vector ⟨a, b, c⟩ * (-1 : ℝ) := by
  refine ⟨?_, ?_, ?_⟩ <;> (ext <;> simp [Plane.normal_vector, cross_product] <;> ring)

end Q2
